import Mathlib

/-!
Verification development for the financial-document-analyzer pipeline.

The Python source is shallowly embedded:
* `task.py` — pydantic schema (`Recommendation`, `DocumentMetadata`,
  `AnalysisResult`, …), `_extract_json_str`, `_mock_result`,
  `_llm_analyze_financials`;
* `tools.py` — `extract_text_from_pdf_bytes` with the two extraction
  capabilities (pypdf / pdfplumber) passed in as parameters;
* `db.py` / `models.py` / `tasks_worker.py` — the store (`jobs`,
  `analyses` with a unique constraint on `analyses.job_id`),
  the transactional `session_scope`, and `process_pdf_job`.

External capabilities (the OpenAI client, the PDF readers) are modelled as
explicit outcome parameters, matching the spec's treatment of them as
fallible black-box capabilities.  JSON numbers are modelled as integers:
every constraint the development exercises (confidence bounds, year, pages)
is integral in the source schema.
-/

/-- JSON values, as produced by Python's `json` module for the subset the
pipeline exercises (numbers restricted to integers). -/
inductive Json where
  | null : Json
  | bool (b : Bool) : Json
  | num (n : Int) : Json
  | str (s : String) : Json
  | arr (xs : List Json) : Json
  | obj (fields : List (String × Json)) : Json

/-- JSON whitespace skipping (space, tab, newline, carriage return). -/
def skipWs : List Char → List Char
  | [] => []
  | c :: cs => if c = ' ' || c = '\t' || c = '\n' || c = '\r' then skipWs cs else c :: cs

/-- Hexadecimal digit value, for `\uXXXX` escapes (code-point arithmetic:
48–57 are the digits, 97–102 lower-case a–f, 65–70 upper-case A–F). -/
def hexVal (c : Char) : Option Nat :=
  let n := c.toNat
  if 48 ≤ n ∧ n ≤ 57 then some (n - 48)
  else if 97 ≤ n ∧ n ≤ 102 then some (n - 87)
  else if 65 ≤ n ∧ n ≤ 70 then some (n - 55)
  else none

/-- Parse the body of a JSON string literal (after the opening quote),
honouring backslash escapes.  Returns the decoded characters and the rest of
the input after the closing quote. -/
def parseStrChars (fuel : Nat) (cs : List Char) (acc : List Char) :
    Option (List Char × List Char) :=
  match fuel, cs with
  | 0, _ => none
  | _, [] => none
  | Nat.succ f, c :: rest =>
    if c = '\"' then some (acc.reverse, rest)
    else if c = '\\' then
      match rest with
      | [] => none
      | e :: rest2 =>
        if e = '\"' then parseStrChars f rest2 ('\"' :: acc)
        else if e = '\\' then parseStrChars f rest2 ('\\' :: acc)
        else if e = '/' then parseStrChars f rest2 ('/' :: acc)
        else if e = 'n' then parseStrChars f rest2 ('\n' :: acc)
        else if e = 't' then parseStrChars f rest2 ('\t' :: acc)
        else if e = 'r' then parseStrChars f rest2 ('\r' :: acc)
        else if e = 'b' then parseStrChars f rest2 ('\x08' :: acc)
        else if e = 'f' then parseStrChars f rest2 ('\x0c' :: acc)
        else if e = 'u' then
          match rest2 with
          | h1 :: h2 :: h3 :: h4 :: rest3 =>
            match hexVal h1, hexVal h2, hexVal h3, hexVal h4 with
            | some a, some b, some c2, some d =>
              parseStrChars f rest3 (Char.ofNat (((a * 16 + b) * 16 + c2) * 16 + d) :: acc)
            | _, _, _, _ => none
          | _ => none
        else none
    else parseStrChars f rest (c :: acc)

/-- Parse a run of decimal digits into a natural number. -/
def parseDigits (fuel : Nat) (cs : List Char) (acc : Nat) (seen : Bool) :
    Option (Nat × List Char) :=
  match fuel, cs with
  | 0, _ => none
  | _, [] => if seen then some (acc, []) else none
  | Nat.succ f, c :: rest =>
    if '0' ≤ c && c ≤ '9' then parseDigits f rest (acc * 10 + (c.toNat - '0'.toNat)) true
    else if seen then some (acc, c :: rest)
    else none

/-- Match a literal keyword (`true`, `false`, `null` tails). -/
def dropLit : List Char → List Char → Option (List Char)
  | [], cs => some cs
  | p :: ps, c :: cs => if c = p then dropLit ps cs else none
  | _ :: _, [] => none

mutual

/-- Recursive-descent JSON value reader (fuel-indexed). -/
def parseVal (fuel : Nat) (cs : List Char) : Option (Json × List Char) :=
  match fuel with
  | 0 => none
  | Nat.succ f =>
    match skipWs cs with
    | [] => none
    | c :: rest =>
      if c = '\x7b' then parseObjRest f rest [] true
      else if c = '[' then parseArrRest f rest [] true
      else if c = '\"' then
        match parseStrChars (rest.length + 1) rest [] with
        | some (body, rest2) => some (Json.str (String.mk body), rest2)
        | none => none
      else if c = 't' then
        match dropLit ['r', 'u', 'e'] rest with
        | some rest2 => some (Json.bool true, rest2)
        | none => none
      else if c = 'f' then
        match dropLit ['a', 'l', 's', 'e'] rest with
        | some rest2 => some (Json.bool false, rest2)
        | none => none
      else if c = 'n' then
        match dropLit ['u', 'l', 'l'] rest with
        | some rest2 => some (Json.null, rest2)
        | none => none
      else if c = '-' then
        match parseDigits (rest.length + 1) rest 0 false with
        | some (n, rest2) => some (Json.num (-(n : Int)), rest2)
        | none => none
      else if '0' ≤ c && c ≤ '9' then
        match parseDigits (rest.length + 2) (c :: rest) 0 false with
        | some (n, rest2) => some (Json.num (n : Int), rest2)
        | none => none
      else none

/-- Read the members of a JSON object after the opening brace. -/
def parseObjRest (fuel : Nat) (cs : List Char) (acc : List (String × Json))
    (first : Bool) : Option (Json × List Char) :=
  match fuel with
  | 0 => none
  | Nat.succ f =>
    match skipWs cs with
    | [] => none
    | c :: rest =>
      if c = '\x7d' && first then some (Json.obj acc.reverse, rest)
      else
        let afterSep : Option (List Char) :=
          if first then some (c :: rest)
          else if c = ',' then some rest
          else if c = '\x7d' then none
          else none
        match afterSep with
        | none => if c = '\x7d' then some (Json.obj acc.reverse, rest) else none
        | some cs2 =>
          match skipWs cs2 with
          | '\"' :: rest2 =>
            match parseStrChars (rest2.length + 1) rest2 [] with
            | some (key, rest3) =>
              match skipWs rest3 with
              | ':' :: rest4 =>
                match parseVal f rest4 with
                | some (v, rest5) =>
                  parseObjRest f rest5 ((String.mk key, v) :: acc) false
                | none => none
              | _ => none
            | none => none
          | _ => none

/-- Read the elements of a JSON array after the opening bracket. -/
def parseArrRest (fuel : Nat) (cs : List Char) (acc : List Json) (first : Bool) :
    Option (Json × List Char) :=
  match fuel with
  | 0 => none
  | Nat.succ f =>
    match skipWs cs with
    | [] => none
    | c :: rest =>
      if c = ']' then some (Json.arr acc.reverse, rest)
      else
        let cs2 : Option (List Char) :=
          if first then some (c :: rest) else if c = ',' then some rest else none
        match cs2 with
        | none => none
        | some cs3 =>
          match parseVal f cs3 with
          | some (v, rest2) => parseArrRest f rest2 (v :: acc) false
          | none => none

end

/-- Parse a whole string as one JSON document (as `json.loads` /
pydantic's JSON parsing do: the entire input must be consumed). -/
def parseJson (s : String) : Option Json :=
  match parseVal (s.length + 1) s.toList with
  | some (j, rest) => if (skipWs rest).isEmpty then some j else none
  | none => none

/-! ## Pydantic schema from `task.py` -/

/-- `class Recommendation(BaseModel)` — `action: Literal["buy","hold","sell"]`,
`rationale: str`, `confidence: conint(ge=0, le=100)`. -/
structure Recommendation where
  action : String
  rationale : String
  confidence : Int
deriving Repr, DecidableEq

/-- `class RiskItem(BaseModel)`. -/
structure RiskItem where
  name : String
  severity : String
  impact : String
  likelihood : String
  mitigation : String
deriving Repr, DecidableEq

/-- `class MarketInsight(BaseModel)`. -/
structure MarketInsight where
  topic : String
  insight : String
  evidence : String
deriving Repr, DecidableEq

/-- `class Metrics(BaseModel)` — all fields optional, default `None`
(numbers modelled as integers). -/
structure Metrics where
  revenue_yoy : Option Int := none
  gross_margin : Option Int := none
  ebitda_margin : Option Int := none
  guidance_change : Option String := none
deriving Repr, DecidableEq

/-- `class DocumentMetadata(BaseModel)` — every field is
`Optional[...] = None` in the source, `source` included. -/
structure DocumentMetadata where
  company : Option String := none
  quarter : Option String := none
  year : Option Int := none
  source : Option String := none
  pages : Option Int := none
deriving Repr, DecidableEq

/-- `class AnalysisResult(BaseModel)`. -/
structure AnalysisResult where
  metadata : DocumentMetadata
  recommendation : Recommendation
  risks : List RiskItem
  insights : List MarketInsight
  key_metrics : Option Metrics := none
  quotes : List String
  limitations : String
deriving Repr, DecidableEq

/-! ## Validation (pydantic `model_validate_json` semantics for this schema) -/

/-- Field lookup in a parsed JSON object. -/
def jGet (fields : List (String × Json)) (k : String) : Option Json :=
  (fields.find? (fun p => p.1 = k)).map (fun p => p.2)

/-- `Optional[str] = None`: absent or `null` become `None`; a string is kept;
anything else is a validation error. -/
def vOptStr (v : Option Json) : Except String (Option String) :=
  match v with
  | none => .ok none
  | some .null => .ok none
  | some (.str s) => .ok (some s)
  | some _ => .error "Input should be a valid string"

/-- `Optional[int] = None`. -/
def vOptInt (v : Option Json) : Except String (Option Int) :=
  match v with
  | none => .ok none
  | some .null => .ok none
  | some (.num n) => .ok (some n)
  | some _ => .error "Input should be a valid integer"

/-- A required `str` field. -/
def vReqStr (v : Option Json) : Except String String :=
  match v with
  | some (.str s) => .ok s
  | some _ => .error "Input should be a valid string"
  | none => .error "Field required"

/-- A required `Literal[...]` field: exact, case-sensitive membership. -/
def vEnum (allowed : List String) (v : Option Json) : Except String String :=
  match v with
  | some (.str s) => if s ∈ allowed then .ok s else .error ("Input should be one of: " ++ String.intercalate ", " allowed)
  | some _ => .error "Input should be a valid string"
  | none => .error "Field required"

/-- `conint(ge=0, le=100)`: an integer within the bounds; out-of-range values
are rejected, never clamped. -/
def vConfidence (v : Option Json) : Except String Int :=
  match v with
  | some (.num n) =>
    if 0 ≤ n then
      if n ≤ 100 then .ok n
      else .error "Input should be less than or equal to 100"
    else .error "Input should be greater than or equal to 0"
  | some _ => .error "Input should be a valid integer"
  | none => .error "Field required"

/-- Validate a `Recommendation` candidate. -/
def validateRecommendation (j : Json) : Except String Recommendation :=
  match j with
  | .obj fs => do
    let action ← vEnum ["buy", "hold", "sell"] (jGet fs "action")
    let rationale ← vReqStr (jGet fs "rationale")
    let confidence ← vConfidence (jGet fs "confidence")
    .ok ⟨action, rationale, confidence⟩
  | _ => .error "Input should be a valid dictionary"

/-- Validate a `RiskItem` candidate. -/
def validateRiskItem (j : Json) : Except String RiskItem :=
  match j with
  | .obj fs => do
    let name ← vReqStr (jGet fs "name")
    let severity ← vEnum ["low", "medium", "high", "critical"] (jGet fs "severity")
    let impact ← vReqStr (jGet fs "impact")
    let likelihood ← vEnum ["low", "medium", "high"] (jGet fs "likelihood")
    let mitigation ← vReqStr (jGet fs "mitigation")
    .ok ⟨name, severity, impact, likelihood, mitigation⟩
  | _ => .error "Input should be a valid dictionary"

/-- Validate a `MarketInsight` candidate. -/
def validateMarketInsight (j : Json) : Except String MarketInsight :=
  match j with
  | .obj fs => do
    let topic ← vReqStr (jGet fs "topic")
    let insight ← vReqStr (jGet fs "insight")
    let evidence ← vReqStr (jGet fs "evidence")
    .ok ⟨topic, insight, evidence⟩
  | _ => .error "Input should be a valid dictionary"

/-- Validate a `Metrics` candidate. -/
def validateMetrics (j : Json) : Except String Metrics :=
  match j with
  | .obj fs => do
    let revenue_yoy ← vOptInt (jGet fs "revenue_yoy")
    let gross_margin ← vOptInt (jGet fs "gross_margin")
    let ebitda_margin ← vOptInt (jGet fs "ebitda_margin")
    let guidance_change ← vOptStr (jGet fs "guidance_change")
    .ok ⟨revenue_yoy, gross_margin, ebitda_margin, guidance_change⟩
  | _ => .error "Input should be a valid dictionary"

/-- Validate a `DocumentMetadata` candidate: every field, `source` included,
is `Optional[...] = None` in the source model. -/
def validateDocumentMetadata (j : Json) : Except String DocumentMetadata :=
  match j with
  | .obj fs => do
    let company ← vOptStr (jGet fs "company")
    let quarter ← vOptStr (jGet fs "quarter")
    let year ← vOptInt (jGet fs "year")
    let source ← vOptStr (jGet fs "source")
    let pages ← vOptInt (jGet fs "pages")
    .ok ⟨company, quarter, year, source, pages⟩
  | _ => .error "Input should be a valid dictionary"

/-- A required `List[...]` field, validating each element. -/
def vReqList {α : Type} (f : Json → Except String α) (v : Option Json) :
    Except String (List α) :=
  match v with
  | some (.arr xs) => xs.mapM f
  | some _ => .error "Input should be a valid list"
  | none => .error "Field required"

/-- `Optional[Metrics] = None`. -/
def vOptMetrics (v : Option Json) : Except String (Option Metrics) :=
  match v with
  | none => .ok none
  | some .null => .ok none
  | some j => (validateMetrics j).map some

/-- Validate an `AnalysisResult` candidate. -/
def validateAnalysisResult (j : Json) : Except String AnalysisResult :=
  match j with
  | .obj fs => do
    let metadata ← match jGet fs "metadata" with
      | some m => validateDocumentMetadata m
      | none => .error "Field required"
    let recommendation ← match jGet fs "recommendation" with
      | some r => validateRecommendation r
      | none => .error "Field required"
    let risks ← vReqList validateRiskItem (jGet fs "risks")
    let insights ← vReqList validateMarketInsight (jGet fs "insights")
    let key_metrics ← vOptMetrics (jGet fs "key_metrics")
    let quotes ← vReqList (fun q => match q with
      | .str s => .ok s
      | _ => .error "Input should be a valid string") (jGet fs "quotes")
    let limitations ← vReqStr (jGet fs "limitations")
    .ok ⟨metadata, recommendation, risks, insights, key_metrics, quotes, limitations⟩
  | _ => .error "Input should be a valid dictionary"

/-- `AnalysisResult.model_validate_json`: parse the string as JSON, then
validate against the schema; any parse error or constraint violation is a
`ValidationError` (modelled as `.error`). -/
def AnalysisResult.model_validate_json (s : String) : Except String AnalysisResult :=
  match parseJson s with
  | none => .error "Invalid JSON"
  | some j => validateAnalysisResult j

/-! ## `_extract_json_str` from `task.py` -/

/-- Python `str.isspace` characters relevant to `str.strip()` (ASCII set). -/
def pyIsSpace (c : Char) : Bool :=
  c = ' ' || c = '\t' || c = '\n' || c = '\r' || c = '\x0b' || c = '\x0c'

/-- Strip characters satisfying `p` from both ends of a character list. -/
def stripEnds (p : Char → Bool) (cs : List Char) : List Char :=
  ((cs.dropWhile p).reverse.dropWhile p).reverse

/-- Python `s.strip()`. -/
def pyStrip (s : String) : String :=
  String.mk (stripEnds pyIsSpace s.toList)

/-- Python `s.strip("`")`. -/
def pyStripBackticks (s : String) : String :=
  String.mk (stripEnds (fun c => c = '\x60') s.toList)

/-- Whether `p` is a leading-character match of `cs`. -/
def listHasPre : List Char → List Char → Bool
  | [], _ => true
  | _ :: _, [] => false
  | p :: ps, c :: cs => p = c && listHasPre ps cs

/-- Whether `needle` occurs as a contiguous run inside `cs`. -/
def listContainsSub (needle : List Char) : List Char → Bool
  | [] => needle.isEmpty
  | c :: cs => listHasPre needle (c :: cs) || listContainsSub needle cs

/-- Python `needle in haystack` (substring containment). -/
def pyContains (haystack needle : String) : Bool :=
  listContainsSub needle.toList haystack.toList

/-- Python `s.lower()` (ASCII case folding, which covers every keyword the
code tests). -/
def pyLower (s : String) : String :=
  String.mk (s.toList.map Char.toLower)

/-- Python `s.startswith(p)`. -/
def pyStartsWith (s p : String) : Bool :=
  listHasPre p.toList s.toList

/-- The scanning loop of `_extract_json_str`, starting at the first `{`:
walk characters tracking string-literal state (with backslash escapes) and
brace depth; emit the consumed characters when depth returns to zero. -/
def scanBalanced : List Char → Nat → Bool → Bool → List Char → Option (List Char)
  | [], _, _, _, _ => none
  | c :: rest, depth, inStr, esc, acc =>
    if inStr then
      if esc then scanBalanced rest depth inStr false (c :: acc)
      else if c = '\\' then scanBalanced rest depth inStr true (c :: acc)
      else if c = '\"' then scanBalanced rest depth false false (c :: acc)
      else scanBalanced rest depth inStr false (c :: acc)
    else
      if c = '\"' then scanBalanced rest depth true false (c :: acc)
      else if c = '\x7b' then scanBalanced rest (depth + 1) inStr false (c :: acc)
      else if c = '\x7d' then
        if depth = 1 then some (c :: acc).reverse
        else scanBalanced rest (depth - 1) inStr false (c :: acc)
      else scanBalanced rest depth inStr false (c :: acc)

/-- The preprocessing of `_extract_json_str`: `s = (s or "").strip()`, then
`if s.startswith("```"): s = s.strip("`").strip()`. -/
def stripFence (s0 : String) : String :=
  let s1 := pyStrip s0
  if pyStartsWith s1 "```" then pyStrip (pyStripBackticks s1) else s1

/-- The post-preprocessing part of `_extract_json_str`: `s.find("{")` is the
length of the prefix of characters that are not an opening brace; when that
is the whole string, `find` returned `-1` and `s` comes back unchanged;
otherwise the scan starts at the first opening brace, and an unbalanced
scan falls through to returning `s`. -/
def extractCore (s : String) : String :=
  if (s.toList.takeWhile (fun c => c ≠ '\x7b')).length = s.toList.length then s
  else
    match scanBalanced
        (s.toList.drop (s.toList.takeWhile (fun c => c ≠ '\x7b')).length)
        0 false false [] with
    | some sub => pyStrip (pyStripBackticks (pyStrip (String.mk sub)))
    | none => s

/-- `_extract_json_str(s)`: preprocessing (trim and fence removal) followed
by the balanced-object scan. -/
def _extract_json_str (s0 : String) : String :=
  extractCore (stripFence s0)

/-! ## `_mock_result` and `_llm_analyze_financials` from `task.py` -/

/-- The `meta` dictionary handed to the analysis functions
(`{company, quarter, year, source, pages}`). -/
structure MetaHints where
  company : Option String := none
  quarter : Option String := none
  year : Option Int := none
  source : Option String := none
  pages : Option Int := none
deriving Repr, DecidableEq

/-- Python `x or default` for an optional string hint: `None` and the empty
string are falsy and give the default. -/
def pyOrStr (x : Option String) (default : String) : String :=
  match x with
  | none => default
  | some s => if s = "" then default else s

/-- The growth keywords of `_mock_result`. -/
def growthKeywords : List String := ["increase", "grew", "up ", "growth", "higher"]

/-- `_mock_result(text, meta)`: keyword-heuristic deterministic result. -/
def _mock_result (text : String) (meta : MetaHints) : AnalysisResult :=
  let t := pyLower text
  let growth := growthKeywords.any (fun k => pyContains t k)
  let margin := pyContains t "margin" || pyContains t "bps"
  let rec_ := if growth && margin then "buy" else if growth then "hold" else "sell"
  { metadata :=
      { company := some (pyOrStr meta.company "UnknownCo")
        quarter := some (pyOrStr meta.quarter "Q?")
        year := meta.year
        source := some (pyOrStr meta.source "uploaded.pdf")
        pages := meta.pages }
    recommendation :=
      { action := rec_
        rationale := "Mock analysis using keywords (growth/margin)."
        confidence := 65 }
    risks := [
      { name := "Data completeness"
        severity := "medium"
        impact := "Heuristic mock may miss context."
        likelihood := "medium"
        mitigation := "Use real model when quota is available." }]
    insights := [
      { topic := "Growth"
        insight := if growth then "Growth keywords detected." else "No clear growth signals detected."
        evidence := if growth then "increase/grew/up/higher" else "—" }]
    key_metrics := some { revenue_yoy := none, gross_margin := none, ebitda_margin := none, guidance_change := none }
    quotes := []
    limitations := "This is a mock result generated without calling the model." }

/-- The only error `_llm_analyze_financials` raises:
`RuntimeError(f"Model call failed: {e}")` — raised both when the chat
completion call fails and when the response fails schema validation. -/
inductive EngineError where
  | modelCallFailed (msg : String) : EngineError
deriving Repr, DecidableEq

/-- Whether an engine outcome is the `Model call failed` RuntimeError. -/
def isModelCallFailed : Except EngineError AnalysisResult → Bool
  | .error (.modelCallFailed _) => true
  | .ok _ => false

/-- `_llm_analyze_financials(text, meta)`.

`mockMode` is the value of `os.getenv("MOCK_LLM","0") == "1"` (the process
environment is fixed for the invocation, so the same value is read at line
211 and inside the `except` handler at line 244).  `modelOutcome` is the
outcome of the external chat-completion capability: `.error e` when
`client.chat.completions.create` raises `e`, `.ok content` when it returns
(`none` modelling a null `message.content`, mapped to `""` by the source).

Returns the pair (model capability was invoked, result-or-error). -/
def _llm_analyze_financials (mockMode : Bool)
    (modelOutcome : Except String (Option String))
    (text : String) (meta : MetaHints) :
    Bool × Except EngineError AnalysisResult :=
  if mockMode then (false, .ok (_mock_result text meta))
  else
    match modelOutcome with
    | .error e =>
      -- `except` handler: fall back to mock only if MOCK_LLM == "1"
      (true, if mockMode then .ok (_mock_result text meta)
             else .error (.modelCallFailed ("Model call failed: " ++ e)))
    | .ok content =>
      let raw := content.getD ""
      let json_text := _extract_json_str raw
      match AnalysisResult.model_validate_json json_text with
      | .ok r => (true, .ok r)
      | .error e =>
        -- a ValidationError is caught by the same `except Exception` handler
        (true, if mockMode then .ok (_mock_result text meta)
               else .error (.modelCallFailed ("Model call failed: " ++ e)))

/-! ## `extract_text_from_pdf_bytes` from `tools.py`

The two extraction capabilities (pypdf and pdfplumber) are modelled as
outcome parameters: a capability either fails to open the document
(`.error`), or yields the per-page outcomes, where each page read either
raises (`.error`), returns `None` (mapped to `""` by `or ""`), or returns
the page text. -/

/-- One capability's outcome: failure to open, or the list of per-page
extraction outcomes. -/
abbrev CapabilityOutcome : Type := Except String (List (Except String (Option String)))

/-- Per-page handling in both loops: a raised page exception or a `None`
text contributes an empty string; the page does not abort the document. -/
def pageChunk : Except String (Option String) → String
  | .error _ => ""
  | .ok none => ""
  | .ok (some t) => t

/-- Result record `{"text": str, "pages": int}`. -/
structure ExtractResult where
  text : String
  pages : Nat
deriving Repr, DecidableEq

/-- UTF-8 normalisation `text.encode("utf-8", errors="replace").decode("utf-8")`:
Lean strings are already valid Unicode, so this is the identity. -/
def normalizeUtf8 (s : String) : String := s

/-- `extract_text_from_pdf_bytes(pdf_bytes)`: primary capability (pypdf),
then fallback (pdfplumber); per-page partial-failure tolerance in both;
`RuntimeError` only when both capabilities fail. -/
def extract_text_from_pdf_bytes (primary fallback : CapabilityOutcome) :
    Except String ExtractResult :=
  match primary with
  | .ok pgs =>
    .ok { text := normalizeUtf8 (String.intercalate "\n" (pgs.map pageChunk))
          pages := pgs.length }
  | .error _ =>
    match fallback with
    | .ok pgs =>
      .ok { text := normalizeUtf8 (String.intercalate "\n" (pgs.map pageChunk))
            pages := pgs.length }
    | .error _ =>
      .error ("PDF extraction requires pypdf (recommended) or pdfplumber. " ++
              "Install with: pip install pypdf pdfplumber")

/-! ## Store, `session_scope` and `process_pdf_job`
(`db.py`, `models.py`, `tasks_worker.py`) -/

/-- A row of the `jobs` table (the columns the orchestrator touches). -/
structure JobRow where
  id : String
  status : String
  error : Option String
deriving Repr, DecidableEq

/-- A row of the `analyses` table: `job_id` carries a UNIQUE constraint;
the scalar columns are denormalized from the result. -/
structure AnalysisRow where
  job_id : String
  result_json : AnalysisResult
  company : Option String
  quarter : Option String
  year : Option Int
  recommendation_action : Option String
  confidence : Option Int
  pages : Option Int
deriving Repr, DecidableEq

/-- The durable store: the two tables the worker mutates. -/
structure Store where
  jobs : List JobRow
  analyses : List AnalysisRow
deriving Repr, DecidableEq

/-- `session.get(Job, job_id)`. -/
def Store.getJob (st : Store) (jid : String) : Option JobRow :=
  st.jobs.find? (fun j => j.id = jid)

/-- Membership of a string in a list of strings. -/
def strListHas : List String → String → Bool
  | [], _ => false
  | y :: ys, x => (y = x) || strListHas ys x

/-- Whether an Analysis row for the job id is already persisted. -/
def Store.hasAnalysis (st : Store) (jid : String) : Bool :=
  strListHas (st.analyses.map AnalysisRow.job_id) jid

/-- Pairwise distinctness of a key column. -/
def jobIdsDistinct : List String → Bool
  | [] => true
  | x :: xs => (!strListHas xs x) && jobIdsDistinct xs

/-- The UNIQUE constraint on `analyses.job_id`, enforced at commit. -/
def Store.analysesOk (st : Store) : Bool :=
  jobIdsDistinct (st.analyses.map AnalysisRow.job_id)

/-- Update the job row: `job.status = s; job.error = e`. -/
def Store.setJob (st : Store) (jid : String) (status : String) (error : Option String) : Store :=
  { st with jobs := st.jobs.map (fun j => if j.id = jid then { j with status := status, error := error } else j) }

/-- `session.add(Analysis(job_id=..., result_json=..., company=..., ...))`
with the denormalized fields extracted from the result dict. -/
def mkAnalysisRow (jid : String) (r : AnalysisResult) : AnalysisRow :=
  { job_id := jid
    result_json := r
    company := r.metadata.company
    quarter := r.metadata.quarter
    year := r.metadata.year
    recommendation_action := some r.recommendation.action
    confidence := some r.recommendation.confidence
    pages := r.metadata.pages }

/-- Insert the analysis row into the session's pending state. -/
def Store.addAnalysis (st : Store) (jid : String) (r : AnalysisResult) : Store :=
  { st with analyses := st.analyses ++ [mkAnalysisRow jid r] }

/-- What the body of a `with session_scope() as session:` block produces:
a returned value (with the pending store state), or a raised exception. -/
inductive SessionOutcome (α : Type) where
  | value (a : α) : SessionOutcome α
  | raised (msg : String) : SessionOutcome α
deriving Repr, DecidableEq

/-- `session_scope()` from `db.py`: run the body; on normal exit commit —
the commit enforces the UNIQUE constraint on `analyses.job_id` and raises
an IntegrityError (rolling everything back) when it is violated; on an
exception from the body, roll back fully and re-raise. -/
def session_scope {α : Type} (st : Store)
    (body : Store → Store × SessionOutcome α) : Store × SessionOutcome α :=
  match body st with
  | (st2, .value a) =>
    if st2.analysesOk then (st2, .value a)
    else (st, .raised "IntegrityError: UNIQUE constraint failed: analyses.job_id")
  | (_, .raised msg) => (st, .raised msg)

/-- The dictionaries `process_pdf_job` returns:
`{"ok": True}` or `{"error": msg}`. -/
inductive TaskDict where
  | okTrue : TaskDict
  | errMsg (msg : String) : TaskDict
deriving Repr, DecidableEq

/-- The body of `process_pdf_job`'s `with session_scope() as session:` block.
`outcome` is the outcome of `run_analysis(query, file_path)`: `.ok r` when it
returns the validated result dict, `.error e` when it raises `e` (extraction
failure, model-call failure, file I/O, ...) — caught by the inner
`try/except`, which records the failure on the job row. -/
def pdf_job_body (jid : String) (outcome : Except String AnalysisResult)
    (st : Store) : Store × SessionOutcome TaskDict :=
  match st.getJob jid with
  | none => (st, .value (.errMsg ("Job " ++ jid ++ " not found")))
  | some _ =>
    match outcome with
    | .ok r =>
      ((st.addAnalysis jid r).setJob jid "done" none, .value .okTrue)
    | .error e =>
      (st.setJob jid "error" (some e), .value (.errMsg e))

/-- `process_pdf_job(job_id, file_path, query, user_id)` from
`tasks_worker.py`: the whole body runs inside `session_scope`, whose commit
happens after the inner `try/except` has finished. -/
def process_pdf_job (st : Store) (jid : String)
    (outcome : Except String AnalysisResult) : Store × SessionOutcome TaskDict :=
  session_scope st (pdf_job_body jid outcome)

/-! ## Concrete data for the orchestrator instances -/

/-- A concrete validated analysis result (the deterministic mock output on a
growth-and-margin text), used to instantiate the orchestrator. -/
def sampleResult : AnalysisResult := _mock_result "revenue grew with margin" {}

/-- Claim C1: invoking `process_pdf_job` again on a job whose status is
already terminal must leave the terminal status unchanged and create no
second Analysis row.  The code has no status guard: re-invoking it on a job
in terminal status `"error"`, with an analysis run that succeeds, flips the
job to `"done"`, clears the error message, and inserts an Analysis row —
the terminal status is not preserved. -/
theorem c1_reinvocation_flips_terminal_error_to_done :
    process_pdf_job ⟨[⟨"j1", "error", some "model down"⟩], []⟩ "j1" (.ok sampleResult)
      = (⟨[⟨"j1", "done", none⟩], [mkAnalysisRow "j1" sampleResult]⟩,
         .value .okTrue) := by
  decide

/-- Claim C2: the spec's failure policy says a failed model call degrades to
the deterministic mock result whenever mock fallback is permitted, so some
configuration must exhibit that degradation.  The fallback in the `except`
handler re-tests the same `MOCK_LLM` flag that line 211 already found false,
so it is unreachable: with the flag off, a failing model call raises the
`Model call failed` RuntimeError; with the flag on, the model capability is
never invoked at all (first component `false`).  No configuration lets a
failed model call degrade to mock. -/
theorem c2_failed_model_call_never_degrades_to_mock :
    _llm_analyze_financials false (.error "api down") "some text" {}
      = (true, .error (.modelCallFailed "Model call failed: api down"))
    ∧ (_llm_analyze_financials true (.error "api down") "some text" {}).1 = false := by
  exact ⟨rfl, rfl⟩

/-- Claim C4: the orchestrator returns a no-op result when the job id is
absent (first conjunct, no exception), but the task boundary is not
exception-free: on redelivery for a job already `"done"` with its Analysis
row persisted, the commit performed by `session_scope` after the inner
`try/except` violates the UNIQUE constraint on `analyses.job_id`, and the
IntegrityError propagates out of `process_pdf_job` (second conjunct). -/
theorem c4_commit_exception_escapes_task_boundary :
    process_pdf_job ⟨[], []⟩ "j1" (.ok sampleResult)
      = (⟨[], []⟩, .value (.errMsg "Job j1 not found"))
    ∧ process_pdf_job ⟨[⟨"j1", "done", none⟩], [mkAnalysisRow "j1" sampleResult]⟩
        "j1" (.ok sampleResult)
      = (⟨[⟨"j1", "done", none⟩], [mkAnalysisRow "j1" sampleResult]⟩,
         .raised "IntegrityError: UNIQUE constraint failed: analyses.job_id") := by
  constructor
  · decide
  · decide

/-- Claim C5: in deterministic mock mode the recommendation action follows
the keyword decision table — `"buy"` when the lower-cased text contains a
growth keyword (`increase`/`grew`/`up `/`growth`/`higher`) and a margin
keyword (`margin`/`bps`), `"hold"` on growth without margin, `"sell"`
without growth — the confidence is always 65, and the text
`"revenue grew 15% with margin improvement"` yields `"buy"`. -/
theorem c5_mock_decision_table (text : String) (meta : MetaHints) :
    (_mock_result text meta).recommendation.action =
      (if growthKeywords.any (fun k => pyContains (pyLower text) k) &&
          (pyContains (pyLower text) "margin" || pyContains (pyLower text) "bps")
       then "buy"
       else if growthKeywords.any (fun k => pyContains (pyLower text) k)
       then "hold"
       else "sell")
    ∧ (_mock_result text meta).recommendation.confidence = 65
    ∧ (_mock_result "revenue grew 15% with margin improvement" {}).recommendation.action
        = "buy" := by
  refine ⟨rfl, rfl, by decide⟩

/-- Claim C10: the mock result never leaves `metadata.company`,
`metadata.quarter` or `metadata.source` null — absent hints get the defaults
`"UnknownCo"`, `"Q?"`, `"uploaded.pdf"` — and it always carries exactly one
risk item, exactly one insight item, and an empty quotes list. -/
theorem c10_mock_metadata_never_null (text : String) (meta : MetaHints) :
    (_mock_result text meta).metadata.company = some (pyOrStr meta.company "UnknownCo")
    ∧ (_mock_result text meta).metadata.quarter = some (pyOrStr meta.quarter "Q?")
    ∧ (_mock_result text meta).metadata.source = some (pyOrStr meta.source "uploaded.pdf")
    ∧ (meta.company = none → (_mock_result text meta).metadata.company = some "UnknownCo")
    ∧ (meta.quarter = none → (_mock_result text meta).metadata.quarter = some "Q?")
    ∧ (meta.source = none → (_mock_result text meta).metadata.source = some "uploaded.pdf")
    ∧ (_mock_result text meta).risks.length = 1
    ∧ (_mock_result text meta).insights.length = 1
    ∧ (_mock_result text meta).quotes = [] := by
  refine ⟨rfl, rfl, rfl, ?_, ?_, ?_, rfl, rfl, rfl⟩
  · intro h
    simp [_mock_result, h, pyOrStr]
  · intro h
    simp [_mock_result, h, pyOrStr]
  · intro h
    simp [_mock_result, h, pyOrStr]

/-- Witness for C10 at a concrete text and empty metadata hints. -/
theorem c10_mock_metadata_never_null_witness :
    (_mock_result "no signals" {}).metadata.company = some "UnknownCo"
    ∧ (_mock_result "no signals" {}).metadata.quarter = some "Q?"
    ∧ (_mock_result "no signals" {}).metadata.source = some "uploaded.pdf"
    ∧ (_mock_result "no signals" {}).risks.length = 1 := by
  have h := c10_mock_metadata_never_null "no signals" {}
  exact ⟨h.2.2.2.1 rfl, h.2.2.2.2.1 rfl, h.2.2.2.2.2.1 rfl, h.2.2.2.2.2.2.1⟩

/-! ## Model responses used as concrete inputs -/

/-- A model response that is well-formed JSON but carries
`recommendation.action = "strong_buy"`. -/
def rawStrongBuy : String :=
  "\x7b\"metadata\": \x7b\"company\": null, \"quarter\": null, \"year\": null, \"source\": \"x.pdf\", \"pages\": 1\x7d, \"recommendation\": \x7b\"action\": \"strong_buy\", \"rationale\": \"r\", \"confidence\": 70\x7d, \"risks\": [], \"insights\": [], \"quotes\": [], \"limitations\": \"none\"\x7d"

/-- A model response that is well-formed JSON but carries
`recommendation.confidence = 101`. -/
def rawConfidence101 : String :=
  "\x7b\"metadata\": \x7b\"company\": null, \"quarter\": null, \"year\": null, \"source\": \"x.pdf\", \"pages\": 1\x7d, \"recommendation\": \x7b\"action\": \"buy\", \"rationale\": \"r\", \"confidence\": 101\x7d, \"risks\": [], \"insights\": [], \"quotes\": [], \"limitations\": \"none\"\x7d"

/-- A candidate whose `metadata` object has no `source` member at all. -/
def rawNoSource : String :=
  "\x7b\"metadata\": \x7b\"company\": \"Acme\"\x7d, \"recommendation\": \x7b\"action\": \"buy\", \"rationale\": \"r\", \"confidence\": 70\x7d, \"risks\": [], \"insights\": [], \"quotes\": [], \"limitations\": \"none\"\x7d"

set_option maxRecDepth 100000 in
/-- Claim C3: an out-of-enum action and an out-of-range confidence do fail
validation — the value is never clamped or coerced (first two conjuncts) —
but the resulting ValidationError is caught by the same `except Exception`
handler as a network failure and re-raised as the very same
`Model call failed` RuntimeError (last two conjuncts), so the code exposes
no `InvalidModelOutput` error distinguishable from `ModelCallFailed`. -/
theorem c3_validation_failure_collapses_into_model_call_failed :
    AnalysisResult.model_validate_json rawStrongBuy
      = .error "Input should be one of: buy, hold, sell"
    ∧ AnalysisResult.model_validate_json rawConfidence101
      = .error "Input should be less than or equal to 100"
    ∧ isModelCallFailed (_llm_analyze_financials false (.ok (some rawStrongBuy)) "t" {}).2
      = true
    ∧ isModelCallFailed (_llm_analyze_financials false (.ok (some rawConfidence101)) "t" {}).2
      = true := by
  exact ⟨rfl, rfl, rfl, rfl⟩

set_option maxRecDepth 100000 in
/-- Counterexample to claim C6: the claim says a candidate whose metadata
lacks a `source` value fails validation; in the code `source` is
`Optional[str] = None` like every other metadata field, and this candidate
validates successfully with `source = None`. -/
theorem c6_counterexample_missing_source_validates :
    AnalysisResult.model_validate_json rawNoSource
      = .ok ⟨⟨some "Acme", none, none, none, none⟩, ⟨"buy", "r", 70⟩,
             [], [], none, [], "none"⟩ := by
  exact rfl

/-- Claim C6 as amended: in a validated `AnalysisResult` every metadata
field — `company`, `quarter`, `year`, `pages` and also `source` — may be
absent or null; an empty metadata object and an all-null metadata object
both validate to all-`None` fields. -/
theorem c6_all_metadata_fields_optional :
    validateDocumentMetadata (Json.obj []) = .ok ⟨none, none, none, none, none⟩
    ∧ validateDocumentMetadata (Json.obj
        [("company", Json.null), ("quarter", Json.null), ("year", Json.null),
         ("source", Json.null), ("pages", Json.null)])
      = .ok ⟨none, none, none, none, none⟩
    ∧ validateDocumentMetadata (Json.obj
        [("company", Json.str "A"), ("quarter", Json.str "Q1"),
         ("year", Json.num 2025), ("source", Json.str "s.pdf"),
         ("pages", Json.num 3)])
      = .ok ⟨some "A", some "Q1", some 2025, some "s.pdf", some 3⟩ := by
  exact ⟨rfl, rfl, rfl⟩

/-- Helper: `takeWhile` keeps a list whose elements all satisfy the
predicate. -/
theorem list_takeWhile_of_all (p : Char → Bool) (l : List Char)
    (h : l.all p = true) : l.takeWhile p = l := by
  induction l with
  | nil => rfl
  | cons c cs ih =>
    simp only [List.all_cons, Bool.and_eq_true] at h
    simp [List.takeWhile_cons, h.1, ih h.2]

/-- Claim C7: `_extract_json_str` strips a leading/trailing backtick fence,
finds the first opening brace and walks characters tracking string-literal
state and brace depth to the matching closing brace; when the (preprocessed)
string contains no opening brace it is returned unchanged, and the fenced
input "Here is the result: ```json\n ... ```" extracts exactly the balanced
object between its braces. -/
theorem c7_extract_json_str_spec :
    (∀ s : String,
        (stripFence s).toList.all (fun c => c ≠ '\x7b') = true →
        _extract_json_str s = stripFence s)
    ∧ _extract_json_str "Here is the result: ```json\n\x7b\"a\":1, \"b\":\x7b\"c\":2\x7d\x7d\n```"
        = "\x7b\"a\":1, \"b\":\x7b\"c\":2\x7d\x7d" := by
  constructor
  · intro s h
    have htw := list_takeWhile_of_all _ _ h
    unfold _extract_json_str extractCore
    rw [htw]
    simp
  · rfl

/-- Witness for C7's no-brace branch at a concrete input. -/
theorem c7_extract_json_str_spec_witness :
    _extract_json_str "no json here" = stripFence "no json here" :=
  c7_extract_json_str_spec.1 "no json here" (by decide)

/-- Helper: membership distributes over list append. -/
theorem strListHas_append (as bs : List String) (z : String) :
    strListHas (as ++ bs) z = (strListHas as z || strListHas bs z) := by
  induction as with
  | nil => simp [strListHas]
  | cons a as ih => simp [strListHas, ih, Bool.or_assoc]

/-- Helper: appending one fresh key preserves pairwise distinctness. -/
theorem jobIdsDistinct_append_single (xs : List String) (x : String)
    (h1 : jobIdsDistinct xs = true) (h2 : strListHas xs x = false) :
    jobIdsDistinct (xs ++ [x]) = true := by
  induction xs with
  | nil => simp [jobIdsDistinct, strListHas]
  | cons y ys ih =>
    simp only [strListHas, Bool.or_eq_false_iff] at h2
    simp only [jobIdsDistinct, Bool.and_eq_true, Bool.not_eq_true'] at h1
    simp only [List.cons_append, jobIdsDistinct, Bool.and_eq_true, Bool.not_eq_true']
    refine ⟨?_, ih h1.2 h2.2⟩
    have hxy : ¬ (y = x) := by
      intro he
      rw [he] at h2
      simp at h2
    have key : strListHas (ys ++ [x]) y = false := by
      rw [strListHas_append, h1.1]
      simp [strListHas, Ne.symm hxy]
    exact key

/-- Claim C8: recording a successful outcome inserts the Analysis row with
the denormalized fields of the result and marks the job `done` with a null
error in the same transaction (first conjunct, under a consistent store with
no prior Analysis row for the job), and an exception raised inside the
`session_scope` block rolls the whole transaction back, leaving the store
exactly as it was (second conjunct). -/
theorem c8_record_success_atomic_and_rollback :
    (∀ (st : Store) (jid : String) (r : AnalysisResult) (job : JobRow),
        st.getJob jid = some job →
        st.hasAnalysis jid = false →
        st.analysesOk = true →
        process_pdf_job st jid (.ok r)
          = ((st.addAnalysis jid r).setJob jid "done" none,
             .value .okTrue))
    ∧ (∀ (st st2 : Store) (body : Store → Store × SessionOutcome TaskDict) (msg : String),
        body st = (st2, .raised msg) →
        session_scope st body = (st, .raised msg)) := by
  constructor
  · intro st jid r job hget hhas hok
    have hok2 : ((st.addAnalysis jid r).setJob jid "done" none).analysesOk = true := by
      simp only [Store.analysesOk, Store.setJob, Store.addAnalysis, List.map_append,
        List.map_cons, List.map_nil, mkAnalysisRow]
      exact jobIdsDistinct_append_single _ _ hok hhas
    unfold process_pdf_job session_scope pdf_job_body
    rw [hget]
    simp only [hok2, if_true]
  · intro st st2 body msg h
    unfold session_scope
    rw [h]

/-- Witness for C8: a pending job with an empty analyses table commits the
row and the `done` transition; a body that raises leaves the store as it
was. -/
theorem c8_record_success_atomic_and_rollback_witness :
    process_pdf_job ⟨[⟨"j1", "pending", none⟩], []⟩ "j1" (.ok sampleResult)
      = ((Store.addAnalysis ⟨[⟨"j1", "pending", none⟩], []⟩ "j1" sampleResult).setJob
           "j1" "done" none, .value .okTrue)
    ∧ session_scope ⟨[], []⟩
        (fun s => (s, (SessionOutcome.raised "boom" : SessionOutcome TaskDict)))
      = (⟨[], []⟩, (SessionOutcome.raised "boom" : SessionOutcome TaskDict)) := by
  refine ⟨?_, ?_⟩
  · exact c8_record_success_atomic_and_rollback.1
      ⟨[⟨"j1", "pending", none⟩], []⟩ "j1" sampleResult ⟨"j1", "pending", none⟩
      rfl rfl rfl
  · exact c8_record_success_atomic_and_rollback.2 ⟨[], []⟩ ⟨[], []⟩
      (fun s => (s, (SessionOutcome.raised "boom" : SessionOutcome TaskDict))) "boom" rfl

/-- Claim C9: the text-extraction adapter is total over capability outcomes:
whenever the primary capability opens the document it returns the per-page
texts joined with newlines and the page count (a string and a count that is
by construction ≥ 0); when the primary fails entirely the fallback is used
the same way; the extraction-unavailable error is raised exactly when both
capabilities fail; and a failing (or empty) single page contributes an empty
string instead of aborting the document. -/
theorem c9_extraction_totality :
    (∀ (pgs : List (Except String (Option String))) (fb : CapabilityOutcome),
        extract_text_from_pdf_bytes (.ok pgs) fb
          = .ok ⟨String.intercalate "\n" (pgs.map pageChunk), pgs.length⟩)
    ∧ (∀ (e : String) (pgs : List (Except String (Option String))),
        extract_text_from_pdf_bytes (.error e) (.ok pgs)
          = .ok ⟨String.intercalate "\n" (pgs.map pageChunk), pgs.length⟩)
    ∧ (∀ e1 e2 : String,
        extract_text_from_pdf_bytes (.error e1) (.error e2)
          = .error ("PDF extraction requires pypdf (recommended) or pdfplumber. " ++
                    "Install with: pip install pypdf pdfplumber"))
    ∧ (∀ msg : String, pageChunk (.error msg) = "" ∧ pageChunk (.ok none) = "") := by
  refine ⟨?_, ?_, ?_, ?_⟩
  · intro pgs fb
    rfl
  · intro e pgs
    rfl
  · intro e1 e2
    rfl
  · intro msg
    exact ⟨rfl, rfl⟩
